import Mathlib

/-
Verification of the behavioural specification of the `test-cpp` educational
repository against a shallow Lean embedding of its C++ sources.

Modelling conventions:
* C++ `double` values that the examples use for money, costs and factorials
  are embedded as `Rat` (every literal appearing in the sources is exactly
  representable, and the claims under study are about control flow, signs
  and exact small values).
* `std::string` is embedded as Lean `String`; for the character-level text
  decorators (`toupper`, Caesar shift) the text is embedded as `List Nat`
  of character codes, matching the byte-wise C++ semantics.
* A C++ member function on an object of class `T` is embedded as a function
  `T → args → result × T`, threading the object state; a function that can
  throw returns `Except CppException α` as its result component, paired with
  the post-call object state (exceptions in these sources are thrown before
  any mutation, so the theorems can speak about the state after a throw).
* The singletons are embedded with an explicit allocation counter: each
  constructed instance carries a fresh `id`, so "identity-equal" is
  expressible as equality of the embedded instance values.
-/

namespace TestCpp

/-- The two standard exception types thrown by the examples
(`std::invalid_argument` and `std::runtime_error`), with their message. -/
inductive CppException
  | invalid_argument (msg : String)
  | runtime_error (msg : String)
  deriving DecidableEq, Repr

/-! ## BankAccount (src/oops_concept/basic/encapsulation_new.hpp) -/

/-- The private data members of `BasicConcepts::BankAccount`. -/
structure BankAccount where
  accountHolder : String
  accountNumber : String
  balance : Rat
  pin : String
  isActive : Bool
  deriving DecidableEq, Repr

/-- `BankAccount::validatePin`: `pin == inputPin`. -/
def BankAccount.validatePin (acc : BankAccount) (inputPin : String) : Bool :=
  acc.pin == inputPin

/-- `BankAccount::isAccountActive`. -/
def BankAccount.isAccountActive (acc : BankAccount) : Bool :=
  acc.isActive

/-- The `BankAccount` constructor with its four validation checks; a thrown
`std::invalid_argument` is an `Except.error`, in source order. -/
def BankAccount.make (holder accNum userPin : String) (initialBalance : Rat) :
    Except CppException BankAccount :=
  if holder.isEmpty then
    .error (.invalid_argument "Account holder name cannot be empty")
  else if accNum.length < 10 then
    .error (.invalid_argument "Account number must be at least 10 digits")
  else if userPin.length ≠ 4 then
    .error (.invalid_argument "PIN must be exactly 4 digits")
  else if initialBalance < 0 then
    .error (.invalid_argument "Initial balance cannot be negative")
  else
    .ok { accountHolder := holder, accountNumber := accNum,
          balance := initialBalance, pin := userPin, isActive := true }

/-- `BankAccount::getBalance`: a `const` method; checks the active flag then
the PIN, throwing `std::runtime_error` on failure, else returns the balance.
The object state is returned unchanged in every branch (the method is
`const` and assigns nothing). -/
def BankAccount.getBalance (acc : BankAccount) (inputPin : String) :
    Except CppException Rat × BankAccount :=
  if !acc.isAccountActive then
    (.error (.runtime_error "Account is not active"), acc)
  else if !acc.validatePin inputPin then
    (.error (.runtime_error "Invalid PIN"), acc)
  else
    (.ok acc.balance, acc)

/-- `BankAccount::deposit`: checks active flag, PIN, positivity of the
amount (throwing on failure, before any mutation), then `balance += amount`. -/
def BankAccount.deposit (acc : BankAccount) (amount : Rat) (inputPin : String) :
    Except CppException Unit × BankAccount :=
  if !acc.isAccountActive then
    (.error (.runtime_error "Account is not active"), acc)
  else if !acc.validatePin inputPin then
    (.error (.runtime_error "Invalid PIN"), acc)
  else if amount ≤ 0 then
    (.error (.invalid_argument "Deposit amount must be positive"), acc)
  else
    (.ok (), { acc with balance := acc.balance + amount })

/-- `BankAccount::withdraw`: checks active flag, PIN and positivity
(throwing on failure); on `amount > balance` it prints a message and
returns `false` leaving the balance untouched; otherwise
`balance -= amount` and returns `true`. -/
def BankAccount.withdraw (acc : BankAccount) (amount : Rat) (inputPin : String) :
    Except CppException Bool × BankAccount :=
  if !acc.isAccountActive then
    (.error (.runtime_error "Account is not active"), acc)
  else if !acc.validatePin inputPin then
    (.error (.runtime_error "Invalid PIN"), acc)
  else if amount ≤ 0 then
    (.error (.invalid_argument "Withdrawal amount must be positive"), acc)
  else if amount > acc.balance then
    (.ok false, acc)
  else
    (.ok true, { acc with balance := acc.balance - amount })

/-- `BankAccount::changePin`: returns `false` (never throws) on a wrong
current PIN or a new PIN whose length is not 4; otherwise stores the new
PIN and returns `true`. -/
def BankAccount.changePin (acc : BankAccount) (oldPin newPin : String) :
    Except CppException Bool × BankAccount :=
  if !acc.validatePin oldPin then
    (.ok false, acc)
  else if newPin.length ≠ 4 then
    (.ok false, acc)
  else
    (.ok true, { acc with pin := newPin })

/-- `BankAccount::deactivateAccount`: PIN check (throws on failure), then
clears the active flag. -/
def BankAccount.deactivateAccount (acc : BankAccount) (inputPin : String) :
    Except CppException Unit × BankAccount :=
  if !acc.validatePin inputPin then
    (.error (.runtime_error "Invalid PIN"), acc)
  else
    (.ok (), { acc with isActive := false })

/-- `BankAccount::activateAccount`: PIN check (throws on failure), then sets
the active flag. -/
def BankAccount.activateAccount (acc : BankAccount) (inputPin : String) :
    Except CppException Unit × BankAccount :=
  if !acc.validatePin inputPin then
    (.error (.runtime_error "Invalid PIN"), acc)
  else
    (.ok (), { acc with isActive := true })

/-- A concrete account like the ones built in the demos
(`BankAccount account1("John Doe", "1234567890", "1234", 1000.0)`). -/
def demoAccount : BankAccount :=
  { accountHolder := "John Doe", accountNumber := "1234567890",
    balance := 1000, pin := "1234", isActive := true }

/-! ## Calculator (cpp_testing calculator implementation) -/

/-- `Calculator::factorial`: throws `std::runtime_error` for negative input,
returns 1 for 0 and 1, else multiplies `result *= i` for `i = 2 .. n`. -/
def Calculator.factorial (n : Int) : Except CppException Rat :=
  if n < 0 then
    .error (.runtime_error "Factorial of negative number is undefined!")
  else if n == 0 || n == 1 then
    .ok 1
  else
    .ok ((List.range' 2 (n.toNat - 1)).foldl (fun r i => r * (i : Rat)) 1)

/-! ## Coffee decorators (decorator pattern, adapter/decorator header) -/

/-- The `Coffee` class hierarchy: the two concrete coffees and the four
concrete decorators, each decorator holding exactly one wrapped `Coffee`
(the `unique_ptr` member of `CoffeeDecorator`). -/
inductive Coffee
  | simpleCoffee
  | espresso
  | milkDecorator (c : Coffee)
  | sugarDecorator (c : Coffee)
  | vanillaDecorator (c : Coffee)
  | whippedCreamDecorator (c : Coffee)
  deriving DecidableEq, Repr

/-- Virtual `getDescription`: each decorator returns
`coffee->getDescription() + " + <ingredient>"`. -/
def Coffee.getDescription : Coffee → String
  | .simpleCoffee => "Simple Coffee"
  | .espresso => "Espresso"
  | .milkDecorator c => c.getDescription ++ " + Milk"
  | .sugarDecorator c => c.getDescription ++ " + Sugar"
  | .vanillaDecorator c => c.getDescription ++ " + Vanilla"
  | .whippedCreamDecorator c => c.getDescription ++ " + Whipped Cream"

/-- Virtual `getCost`: each decorator returns `coffee->getCost() + delta`. -/
def Coffee.getCost : Coffee → Rat
  | .simpleCoffee => 2.0
  | .espresso => 3.0
  | .milkDecorator c => c.getCost + 0.5
  | .sugarDecorator c => c.getCost + 0.2
  | .vanillaDecorator c => c.getCost + 0.7
  | .whippedCreamDecorator c => c.getCost + 1.0

/-- Virtual `prepare`, modelled as the list of lines printed: each decorator
first calls `coffee->prepare()` and then prints its own line. -/
def Coffee.prepare : Coffee → List String
  | .simpleCoffee => ["☕ Brewing simple black coffee..."]
  | .espresso => ["☕ Preparing rich espresso shot..."]
  | .milkDecorator c => c.prepare ++ ["🥛 Adding creamy steamed milk..."]
  | .sugarDecorator c => c.prepare ++ ["🍯 Adding sweet sugar..."]
  | .vanillaDecorator c => c.prepare ++ ["🌟 Adding aromatic vanilla flavor..."]
  | .whippedCreamDecorator c => c.prepare ++ ["🍦 Topping with fluffy whipped cream..."]

/-- The four concrete coffee decorator classes, as the choice a caller makes
when wrapping. -/
inductive CoffeeDec
  | milk
  | sugar
  | vanilla
  | whippedCream
  deriving DecidableEq, Repr

/-- Wrapping a coffee in the chosen decorator
(`std::make_unique<XDecorator>(std::move(coffee))`). -/
def CoffeeDec.wrap : CoffeeDec → Coffee → Coffee
  | .milk, c => .milkDecorator c
  | .sugar, c => .sugarDecorator c
  | .vanilla, c => .vanillaDecorator c
  | .whippedCream, c => .whippedCreamDecorator c

/-- The description text each decorator appends. -/
def CoffeeDec.suffix : CoffeeDec → String
  | .milk => " + Milk"
  | .sugar => " + Sugar"
  | .vanilla => " + Vanilla"
  | .whippedCream => " + Whipped Cream"

/-- The cost delta each decorator adds. -/
def CoffeeDec.delta : CoffeeDec → Rat
  | .milk => 0.5
  | .sugar => 0.2
  | .vanilla => 0.7
  | .whippedCream => 1.0

/-- The line that the `prepare` of each decorator prints after delegating. -/
def CoffeeDec.prepareLine : CoffeeDec → String
  | .milk => "🥛 Adding creamy steamed milk..."
  | .sugar => "🍯 Adding sweet sugar..."
  | .vanilla => "🌟 Adding aromatic vanilla flavor..."
  | .whippedCream => "🍦 Topping with fluffy whipped cream..."

/-- A caller-built chain: wrap `b` by the decorators of `ds` from the inside
out (first element of `ds` is applied first, so it sits innermost). -/
def wrapChain (b : Coffee) (ds : List CoffeeDec) : Coffee :=
  ds.foldl (fun c d => d.wrap c) b

/-! ## Text-processing decorators (same header) -/

/-- C `isalpha` on a character code (C locale: `A`-`Z` or `a`-`z`). -/
def isalphaChar (c : Nat) : Bool :=
  (65 ≤ c && c ≤ 90) || (97 ≤ c && c ≤ 122)

/-- C `isupper` on a character code. -/
def isupperChar (c : Nat) : Bool :=
  65 ≤ c && c ≤ 90

/-- C `::toupper` on a character code: lowercase letters lose 32, everything
else is unchanged. -/
def toupperChar (c : Nat) : Nat :=
  if 97 ≤ c && c ≤ 122 then c - 32 else c

/-- One character of `EncryptionDecorator::process`:
`(c - base + shift) % 26 + base` for letters (C++ `%` truncates, hence
`Int.tmod`), other characters pass through. -/
def encryptChar (shift : Int) (c : Nat) : Nat :=
  if isalphaChar c then
    let base : Int := if isupperChar c then 65 else 97
    (((c : Int) - base + shift).tmod 26 + base).toNat
  else c

/-- `CompressionDecorator::process` body: drop a space that directly follows
another space, tracking `prevSpace`. -/
def compressText : Bool → List Nat → List Nat
  | _, [] => []
  | prevSpace, c :: rest =>
    if c == 32 then
      if prevSpace then compressText true rest
      else c :: compressText true rest
    else c :: compressText false rest

/-- The `TextProcessor` hierarchy: the plain base and the three decorators,
each holding exactly one wrapped processor. -/
inductive TextProcessor
  | plainText
  | upperCase (p : TextProcessor)
  | encryption (shift : Int) (p : TextProcessor)
  | compression (p : TextProcessor)
  deriving DecidableEq, Repr

/-- Virtual `process`: each decorator first runs the wrapped processor on the
text, then applies its own transformation to the result. -/
def TextProcessor.process : TextProcessor → List Nat → List Nat
  | .plainText, text => text
  | .upperCase p, text => (p.process text).map toupperChar
  | .encryption shift p, text => (p.process text).map (encryptChar shift)
  | .compression p, text => compressText false (p.process text)

/-- Virtual `getProcessingInfo`: the wrapped info plus the tag of this decorator. -/
def TextProcessor.getProcessingInfo : TextProcessor → String
  | .plainText => "Plain Text"
  | .upperCase p => p.getProcessingInfo ++ " -> UpperCase"
  | .encryption shift p =>
      p.getProcessingInfo ++ " -> Encrypted(shift=" ++ toString shift ++ ")"
  | .compression p => p.getProcessingInfo ++ " -> Compressed"

/-- The concrete text decorator classes a caller can wrap with. -/
inductive TextDec
  | upperCase
  | encryption (shift : Int)
  | compression
  deriving DecidableEq, Repr

/-- Wrapping a text processor in the chosen decorator. -/
def TextDec.wrap : TextDec → TextProcessor → TextProcessor
  | .upperCase, p => .upperCase p
  | .encryption shift, p => .encryption shift p
  | .compression, p => .compression p

/-! ## Singletons (singleton header) -/

/-- A `DatabaseConnection` object; `id` is the allocation identity of the
`new DatabaseConnection(conn_str)` that produced it. -/
structure DatabaseConnection where
  id : Nat
  connection_string : String
  deriving DecidableEq, Repr

/-- The static state of the classic singleton: the `instance` pointer plus
the allocation counter that gives fresh identities. -/
structure DBConnState where
  instanceVar : Option DatabaseConnection
  nextId : Nat
  deriving DecidableEq, Repr

/-- `DatabaseConnection::getInstance(conn_str)`: allocate on first call, then
always return the stored instance (the mutex only serialises the check and
is invisible single-threaded). -/
def DatabaseConnection.getInstance (s : DBConnState) (conn_str : String) :
    DatabaseConnection × DBConnState :=
  match s.instanceVar with
  | some inst => (inst, s)
  | none =>
    let inst : DatabaseConnection := { id := s.nextId, connection_string := conn_str }
    (inst, { instanceVar := some inst, nextId := s.nextId + 1 })

/-- A `Logger` object with its allocation identity. -/
structure Logger where
  id : Nat
  deriving DecidableEq, Repr

/-- The static-local state of `Logger::getInstance`. -/
structure LoggerState where
  instanceVar : Option Logger
  nextId : Nat
  deriving DecidableEq, Repr

/-- `Logger::getInstance()`: construct the static local on first call, then
always return it. -/
def Logger.getInstance (s : LoggerState) : Logger × LoggerState :=
  match s.instanceVar with
  | some inst => (inst, s)
  | none =>
    let inst : Logger := { id := s.nextId }
    (inst, { instanceVar := some inst, nextId := s.nextId + 1 })

/-- `ConfigManager::Environment`. -/
inductive Environment
  | DEVELOPMENT
  | TESTING
  | PRODUCTION
  deriving DecidableEq, Repr

/-- A `ConfigManager` object: allocation identity plus its mutable fields,
initialised by the private constructor. -/
structure ConfigManager where
  id : Nat
  env : Environment
  config_path : String
  deriving DecidableEq, Repr

/-- The static-local state of `ConfigManager::getInstance`. -/
structure ConfigManagerState where
  instanceVar : Option ConfigManager
  nextId : Nat
  deriving DecidableEq, Repr

/-- `ConfigManager::getInstance()`: construct the static local with the
defaults of the private constructor on first call, then always return it. -/
def ConfigManager.getInstance (s : ConfigManagerState) :
    ConfigManager × ConfigManagerState :=
  match s.instanceVar with
  | some inst => (inst, s)
  | none =>
    let inst : ConfigManager :=
      { id := s.nextId, env := .DEVELOPMENT, config_path := "config/dev.json" }
    (inst, { instanceVar := some inst, nextId := s.nextId + 1 })

/-! ## Helper lemmas -/

lemma CoffeeDec.wrap_getDescription (d : CoffeeDec) (c : Coffee) :
    (d.wrap c).getDescription = c.getDescription ++ d.suffix := by
  cases d <;> rfl

lemma CoffeeDec.wrap_getCost (d : CoffeeDec) (c : Coffee) :
    (d.wrap c).getCost = c.getCost + d.delta := by
  cases d <;> rfl

lemma CoffeeDec.wrap_prepare (d : CoffeeDec) (c : Coffee) :
    (d.wrap c).prepare = c.prepare ++ [d.prepareLine] := by
  cases d <;> rfl

lemma toupperChar_of_lower {c : Nat} (h1 : 97 ≤ c) (h2 : c ≤ 122) :
    toupperChar c = c - 32 := by
  simp [toupperChar, h1, h2]

lemma toupperChar_of_not_lower {c : Nat} (h : ¬(97 ≤ c ∧ c ≤ 122)) :
    toupperChar c = c := by
  simp [toupperChar]
  omega

lemma encryptChar_lower (shift : Int) (hs : 0 ≤ shift) (c : Nat)
    (h1 : 97 ≤ c) (h2 : c ≤ 122) :
    encryptChar shift c = (((c : Int) - 97 + shift) % 26 + 97).toNat := by
  have ha : isalphaChar c = true := by simp [isalphaChar]; omega
  have hu : isupperChar c = false := by simp [isupperChar]; omega
  simp only [encryptChar, ha, hu, if_true, if_false, Bool.false_eq_true]
  rw [Int.tmod_eq_emod (by omega) (by norm_num)]

lemma encryptChar_upper (shift : Int) (hs : 0 ≤ shift) (c : Nat)
    (h1 : 65 ≤ c) (h2 : c ≤ 90) :
    encryptChar shift c = (((c : Int) - 65 + shift) % 26 + 65).toNat := by
  have ha : isalphaChar c = true := by simp [isalphaChar]; omega
  have hu : isupperChar c = true := by simp [isupperChar]; omega
  simp only [encryptChar, ha, hu, if_true]
  rw [Int.tmod_eq_emod (by omega) (by norm_num)]

lemma encryptChar_not_alpha (shift : Int) (c : Nat)
    (h : isalphaChar c = false) :
    encryptChar shift c = c := by
  simp [encryptChar, h]

/-- Upper-casing commutes with the Caesar shift character map whenever the
shift is nonnegative (every shift the sources use is 2, 3 or 5). -/
lemma toupperChar_encryptChar_comm (shift : Int) (hs : 0 ≤ shift) (c : Nat) :
    toupperChar (encryptChar shift c) = encryptChar shift (toupperChar c) := by
  by_cases hl : 97 ≤ c ∧ c ≤ 122
  · obtain ⟨h1, h2⟩ := hl
    have hm1 : 0 ≤ ((c : Int) - 97 + shift) % 26 := Int.emod_nonneg _ (by norm_num)
    have hm2 : ((c : Int) - 97 + shift) % 26 < 26 := Int.emod_lt_of_pos _ (by norm_num)
    rw [encryptChar_lower shift hs c h1 h2]
    rw [toupperChar_of_lower h1 h2]
    rw [encryptChar_upper shift hs (c - 32) (by omega) (by omega)]
    have hcast : ((c - 32 : Nat) : Int) = (c : Int) - 32 := by omega
    rw [hcast]
    have harg : (c : Int) - 32 - 65 + shift = (c : Int) - 97 + shift := by ring
    rw [harg]
    rw [toupperChar_of_lower (c := (((c : Int) - 97 + shift) % 26 + 97).toNat)
      (by omega) (by omega)]
    omega
  · by_cases hu2 : 65 ≤ c ∧ c ≤ 90
    · obtain ⟨h1, h2⟩ := hu2
      have hm1 : 0 ≤ ((c : Int) - 65 + shift) % 26 := Int.emod_nonneg _ (by norm_num)
      have hm2 : ((c : Int) - 65 + shift) % 26 < 26 := Int.emod_lt_of_pos _ (by norm_num)
      rw [encryptChar_upper shift hs c h1 h2]
      rw [toupperChar_of_not_lower (c := c) (by omega)]
      rw [encryptChar_upper shift hs c h1 h2]
      rw [toupperChar_of_not_lower (c := (((c : Int) - 65 + shift) % 26 + 65).toNat)
        (by omega)]
    · have ha : isalphaChar c = false := by simp [isalphaChar]; omega
      rw [encryptChar_not_alpha shift c ha]
      rw [toupperChar_of_not_lower (c := c) (by simp [isalphaChar] at ha; omega)]
      rw [encryptChar_not_alpha shift c ha]

lemma map_toupper_encrypt_comm (shift : Int) (hs : 0 ≤ shift) (l : List Nat) :
    (l.map (encryptChar shift)).map toupperChar =
      (l.map toupperChar).map (encryptChar shift) := by
  induction l with
  | nil => rfl
  | cons c rest ih =>
    simp only [List.map_cons, ih, toupperChar_encryptChar_comm shift hs c]

/-! ## Claim theorems -/

/-- C1 counterexample: on an active account with the correct PIN and an
amount strictly above the balance, `withdraw` does NOT throw: it returns
`false` with the account unchanged, so no standard exception represents the
insufficient-funds case here. -/
theorem withdraw_insufficient_throws_cex :
    demoAccount.withdraw 5000 "1234" = (.ok false, demoAccount) ∧
    ∀ e : CppException, (demoAccount.withdraw 5000 "1234").1 ≠ .error e := by
  refine ⟨rfl, fun e h => ?_⟩
  have h1 : (demoAccount.withdraw 5000 "1234").1 = .ok false := rfl
  rw [h1] at h
  exact Except.noConfusion h

/-- C1 (amended): on an active account, with the correct PIN and a positive
amount strictly greater than the balance, `withdraw` reports the
insufficient-funds case by returning `false` and leaving the account
unchanged; it throws only for an inactive account, a wrong PIN, or a
non-positive amount. -/
theorem withdraw_insufficient_returns_false (acc : BankAccount) (amount : Rat)
    (inputPin : String) (hact : acc.isActive = true) (hpin : acc.pin = inputPin)
    (hpos : 0 < amount) (hover : acc.balance < amount) :
    acc.withdraw amount inputPin = (.ok false, acc) := by
  simp [BankAccount.withdraw, BankAccount.isAccountActive, BankAccount.validatePin,
    hact, hpin, not_le.mpr hpos, hover]

/-- C1 witness: the amended theorem applied to a concrete account, a
correct PIN and an amount above the balance. -/
theorem withdraw_insufficient_returns_false_witness :
    demoAccount.withdraw 2000 "1234" = (.ok false, demoAccount) :=
  withdraw_insufficient_returns_false demoAccount 2000 "1234" rfl rfl
    (by norm_num) (by norm_num [demoAccount])

/-- C2: for every base coffee `b` and decorators `A`, `B`, the chain
`b → A → B` satisfies `describe() = b.describe() + A.suffix + B.suffix` and
`cost() = b.cost() + A.delta + B.delta`. -/
theorem decorator_chain_describe_cost (b : Coffee) (A B : CoffeeDec) :
    (B.wrap (A.wrap b)).getDescription = b.getDescription ++ A.suffix ++ B.suffix ∧
    (B.wrap (A.wrap b)).getCost = b.getCost + A.delta + B.delta := by
  rw [CoffeeDec.wrap_getDescription, CoffeeDec.wrap_getDescription,
    CoffeeDec.wrap_getCost, CoffeeDec.wrap_getCost]
  exact ⟨rfl, rfl⟩

/-- C3 counterexample: for the Caesar-shift encryption decorator with the
default shift 3 composed with the upper-casing decorator, there is NO input
on which the two wrapping orders produce different processed output — the
two effects commute, refuting the claimed output divergence. -/
theorem upper_encrypt_order_output_cex :
    ¬ ∃ input : List Nat,
      (TextDec.upperCase.wrap ((TextDec.encryption 3).wrap .plainText)).process input ≠
        ((TextDec.encryption 3).wrap (TextDec.upperCase.wrap .plainText)).process input := by
  rintro ⟨input, hne⟩
  exact hne (by
    simp only [TextDec.wrap, TextProcessor.process]
    exact map_toupper_encrypt_comm 3 (by norm_num) input)

/-- C3 (amended): wrapping order does change `describe()` — for some base
and two distinct decorators the two orders give different strings — but
Caesar-shift encryption with any nonnegative shift (the only shifts the
code uses) commutes with upper-casing on the processed output: for every
input the two orderings agree. -/
theorem decorator_order_amended :
    (∃ (b : TextProcessor) (A B : TextDec), A ≠ B ∧
        (B.wrap (A.wrap b)).getProcessingInfo ≠ (A.wrap (B.wrap b)).getProcessingInfo) ∧
    ∀ shift : Int, 0 ≤ shift → ∀ input : List Nat,
      (TextDec.upperCase.wrap ((TextDec.encryption shift).wrap .plainText)).process input =
        ((TextDec.encryption shift).wrap (TextDec.upperCase.wrap .plainText)).process input := by
  constructor
  · exact ⟨.plainText, .upperCase, .encryption 3, by decide, by decide⟩
  · intro shift hs input
    simp only [TextDec.wrap, TextProcessor.process]
    exact map_toupper_encrypt_comm shift hs input

/-- C3 witness: the commuting part of the amended theorem at shift 3 on the
concrete input "hello!". -/
theorem decorator_order_amended_witness :
    (TextDec.upperCase.wrap ((TextDec.encryption 3).wrap .plainText)).process
        [104, 101, 108, 108, 111, 33] =
      ((TextDec.encryption 3).wrap (TextDec.upperCase.wrap .plainText)).process
        [104, 101, 108, 108, 111, 33] :=
  decorator_order_amended.2 3 (by norm_num) [104, 101, 108, 108, 111, 33]

/-- C4: `prepare` runs strictly inner-to-outer: every wrapper first plays
the wrapped `prepare` output and then appends its own line, so a whole
chain prints the base lines first and then the decorator lines in wrapping
order. -/
theorem prepare_inner_to_outer :
    (∀ (c : Coffee) (d : CoffeeDec), (d.wrap c).prepare = c.prepare ++ [d.prepareLine]) ∧
    ∀ (b : Coffee) (ds : List CoffeeDec),
      (wrapChain b ds).prepare = b.prepare ++ ds.map CoffeeDec.prepareLine := by
  refine ⟨fun c d => CoffeeDec.wrap_prepare d c, fun b ds => ?_⟩
  induction ds generalizing b with
  | nil => simp [wrapChain]
  | cons d rest ih =>
    have hstep : wrapChain b (d :: rest) = wrapChain (d.wrap b) rest := rfl
    rw [hstep, ih (d.wrap b), CoffeeDec.wrap_prepare]
    simp

/-- C5: on an active account, `getBalance` with a wrong PIN produces exactly
the documented `std::runtime_error("Invalid PIN")` and leaves the account
(balance, PIN, active flag) unchanged. -/
theorem getBalance_wrong_pin (acc : BankAccount) (inputPin : String)
    (hact : acc.isActive = true) (hpin : acc.pin ≠ inputPin) :
    acc.getBalance inputPin = (.error (.runtime_error "Invalid PIN"), acc) := by
  simp [BankAccount.getBalance, BankAccount.isAccountActive, BankAccount.validatePin,
    hact, hpin]

/-- C5 witness: the theorem applied to the concrete demo account and the
wrong PIN "0000". -/
theorem getBalance_wrong_pin_witness :
    demoAccount.getBalance "0000" = (.error (.runtime_error "Invalid PIN"), demoAccount) :=
  getBalance_wrong_pin demoAccount "0000" rfl (by decide)

/-- C6: the balance is non-negative after construction, and every public
operation — `deposit`, `withdraw`, `changePin`, `deactivateAccount`,
`activateAccount` — preserves non-negativity of the post-state balance,
whether the call succeeds, returns `false`, or throws. -/
theorem balance_nonneg_invariant (acc : BankAccount) (h : 0 ≤ acc.balance) :
    (∀ (holder accNum userPin : String) (init : Rat) (acc0 : BankAccount),
        BankAccount.make holder accNum userPin init = .ok acc0 → 0 ≤ acc0.balance) ∧
    (∀ (amount : Rat) (inputPin : String),
        0 ≤ ((acc.deposit amount inputPin).2).balance) ∧
    (∀ (amount : Rat) (inputPin : String),
        0 ≤ ((acc.withdraw amount inputPin).2).balance) ∧
    (∀ (oldPin newPin : String), 0 ≤ ((acc.changePin oldPin newPin).2).balance) ∧
    (∀ (inputPin : String), 0 ≤ ((acc.deactivateAccount inputPin).2).balance) ∧
    (∀ (inputPin : String), 0 ≤ ((acc.activateAccount inputPin).2).balance) := by
  refine ⟨?_, ?_, ?_, ?_, ?_, ?_⟩
  · intro holder accNum userPin init acc0 hmk
    unfold BankAccount.make at hmk
    split_ifs at hmk <;> try exact Except.noConfusion hmk
    rename_i hneg
    injection hmk with he
    subst he
    simpa using le_of_not_lt hneg
  · intro amount inputPin
    unfold BankAccount.deposit
    split_ifs <;>
      first
        | simpa using h
        | (rename_i hpos
           simp only [Prod.snd]
           linarith [not_le.mp hpos])
  · intro amount inputPin
    unfold BankAccount.withdraw
    split_ifs <;>
      first
        | simpa using h
        | (rename_i hle
           simp only [Prod.snd]
           linarith [not_lt.mp hle])
  · intro oldPin newPin
    unfold BankAccount.changePin
    split_ifs <;> simpa using h
  · intro inputPin
    unfold BankAccount.deactivateAccount
    split_ifs <;> simpa using h
  · intro inputPin
    unfold BankAccount.activateAccount
    split_ifs <;> simpa using h

/-- C6 witness: the invariant applied to the concrete demo account,
extracting the withdraw conjunct at a concrete amount and PIN. -/
theorem balance_nonneg_invariant_witness :
    0 ≤ ((demoAccount.withdraw 200 "1234").2).balance :=
  (balance_nonneg_invariant demoAccount (by norm_num [demoAccount])).2.2.1 200 "1234"

/-- C7: `Calculator::factorial` returns 1 at 0, 120 at 5, and throws the
runtime error for every negative input. -/
theorem factorial_spec :
    Calculator.factorial 0 = .ok 1 ∧ Calculator.factorial 5 = .ok 120 ∧
    ∀ n : Int, n < 0 →
      Calculator.factorial n =
        .error (.runtime_error "Factorial of negative number is undefined!") := by
  refine ⟨rfl, ?_, ?_⟩
  · norm_num [Calculator.factorial, List.range']
  · intro n hn
    unfold Calculator.factorial
    rw [if_pos hn]

/-- C7 witness: the negative branch of the theorem applied at -1. -/
theorem factorial_spec_witness :
    Calculator.factorial (-1) =
      .error (.runtime_error "Factorial of negative number is undefined!") :=
  factorial_spec.2.2 (-1) (by norm_num)

/-- C8: for each singleton holder (`DatabaseConnection`, `Logger`,
`ConfigManager`), any `getInstance` call made after another returns the
identical instance (the same allocation) and leaves the stored instance
untouched, so every repeated call in one process yields one identity. -/
theorem singleton_identity :
    (∀ (s : DBConnState) (a b : String),
      (DatabaseConnection.getInstance (DatabaseConnection.getInstance s a).2 b).1 =
          (DatabaseConnection.getInstance s a).1 ∧
      (DatabaseConnection.getInstance (DatabaseConnection.getInstance s a).2 b).2 =
          (DatabaseConnection.getInstance s a).2) ∧
    (∀ s : LoggerState,
      (Logger.getInstance (Logger.getInstance s).2).1 = (Logger.getInstance s).1 ∧
      (Logger.getInstance (Logger.getInstance s).2).2 = (Logger.getInstance s).2) ∧
    (∀ s : ConfigManagerState,
      (ConfigManager.getInstance (ConfigManager.getInstance s).2).1 =
          (ConfigManager.getInstance s).1 ∧
      (ConfigManager.getInstance (ConfigManager.getInstance s).2).2 =
          (ConfigManager.getInstance s).2) := by
  refine ⟨fun s a b => ?_, fun s => ?_, fun s => ?_⟩ <;>
    rcases s with ⟨inst?, nid⟩ <;> cases inst? <;>
      simp [DatabaseConnection.getInstance, Logger.getInstance, ConfigManager.getInstance]

/-- C9: starting uninitialised, a second `DatabaseConnection::getInstance`
call with a different connection string returns the very instance of the
first call, still configured with the first string, and allocates nothing
(the state, including the allocation counter, is unchanged). -/
theorem dbconn_second_call_ignores_arg (s : DBConnState) (str1 str2 : String)
    (hinit : s.instanceVar = none) (hne : str2 ≠ str1) :
    (DatabaseConnection.getInstance (DatabaseConnection.getInstance s str1).2 str2).1 =
        (DatabaseConnection.getInstance s str1).1 ∧
    (DatabaseConnection.getInstance (DatabaseConnection.getInstance s str1).2 str2).1.connection_string
        = str1 ∧
    (DatabaseConnection.getInstance (DatabaseConnection.getInstance s str1).2 str2).2 =
        (DatabaseConnection.getInstance s str1).2 := by
  simp [DatabaseConnection.getInstance, hinit]

/-- C9 witness: the theorem at the demo call sequence
(`"mysql://localhost:3306"` then `"postgres://localhost:5432"`). -/
theorem dbconn_second_call_ignores_arg_witness :
    (DatabaseConnection.getInstance
        (DatabaseConnection.getInstance ⟨none, 0⟩ "mysql://localhost:3306").2
        "postgres://localhost:5432").1 =
      (DatabaseConnection.getInstance ⟨none, 0⟩ "mysql://localhost:3306").1 ∧
    (DatabaseConnection.getInstance
        (DatabaseConnection.getInstance ⟨none, 0⟩ "mysql://localhost:3306").2
        "postgres://localhost:5432").1.connection_string = "mysql://localhost:3306" ∧
    (DatabaseConnection.getInstance
        (DatabaseConnection.getInstance ⟨none, 0⟩ "mysql://localhost:3306").2
        "postgres://localhost:5432").2 =
      (DatabaseConnection.getInstance ⟨none, 0⟩ "mysql://localhost:3306").2 :=
  dbconn_second_call_ignores_arg ⟨none, 0⟩ "mysql://localhost:3306"
    "postgres://localhost:5432" rfl (by decide)

/-- C10: `changePin` never throws; it returns `false` with the account (so
the stored PIN) unchanged when the current PIN is wrong or the new PIN does
not have length 4, and returns `true` storing the new PIN exactly when the
old PIN matches and the new PIN has length 4. -/
theorem changePin_spec (acc : BankAccount) (oldPin newPin : String) :
    (¬(acc.pin = oldPin ∧ newPin.length = 4) →
        acc.changePin oldPin newPin = (.ok false, acc)) ∧
    (acc.pin = oldPin → newPin.length = 4 →
        acc.changePin oldPin newPin = (.ok true, { acc with pin := newPin })) ∧
    ∀ e : CppException, (acc.changePin oldPin newPin).1 ≠ .error e := by
  refine ⟨?_, ?_, ?_⟩
  · intro hno
    unfold BankAccount.changePin BankAccount.validatePin
    by_cases hp : acc.pin = oldPin
    · have hl : newPin.length ≠ 4 := fun hlen => hno ⟨hp, hlen⟩
      simp [hp, hl]
    · simp [hp]
  · intro hp hl
    simp [BankAccount.changePin, BankAccount.validatePin, hp, hl]
  · intro e
    unfold BankAccount.changePin BankAccount.validatePin
    split_ifs <;> simp

/-- C10 witness: the success branch of the theorem on the demo account. -/
theorem changePin_spec_witness :
    demoAccount.changePin "1234" "5678" =
      (.ok true, { demoAccount with pin := "5678" }) :=
  (changePin_spec demoAccount "1234" "5678").2.1 rfl rfl

end TestCpp

